import Mathlib

/-!
Verification development for the maritime terrain visualization repository.

The definitions below are a shallow embedding of the procedural terrain
generator (`src/three/terrain/TerrainGenerator.ts`), its math helpers
(`src/three/utils/Math.ts`), and the water shader's fractional Brownian
motion accumulator (`src/shaders/water/water.fs.glsl`).  JavaScript numbers
are modelled as real numbers; the externally seeded simplex-noise primitive
(`createNoise2D` from the `simplex-noise` package) and the stream of
`Math.random()` draws are modelled as explicit function parameters, so that
every operation of the source becomes a pure Lean function.  Mutation of the
generator object is modelled by explicit state passing: `generateHeightMap`
returns the updated generator together with the produced height list, and
the GUI's live field mutations are captured by the `Step` relation.
-/

noncomputable section

namespace Maritime

/-! ## Math.ts helpers -/

/-- `randInRangeInt` from `Math.ts`:
`Math.floor(Math.random() * (max - min + 1)) + min`, with the `Math.random()`
draw passed in explicitly as `r`. -/
def randInRangeInt (r min max : ℝ) : ℝ :=
  ((⌊r * (max - min + 1)⌋ : ℤ) : ℝ) + min

/-- `normalize` from `Math.ts`: `(n - min) / (max - min)`. -/
def normalize (n min max : ℝ) : ℝ :=
  (n - min) / (max - min)

/-- `euclideanDistance` from `Math.ts`:
`sqrt((bx - ax)^2 + (by - ay)^2)`. -/
def euclideanDistance (pointA pointB : ℝ × ℝ) : ℝ :=
  Real.sqrt ((pointB.1 - pointA.1) ^ 2 + (pointB.2 - pointA.2) ^ 2)

/-- `easeInOutSine` from `Math.ts`: `-(cos(PI * x) - 1) / 2`. -/
def easeInOutSine (x : ℝ) : ℝ :=
  -(Real.cos (Real.pi * x) - 1) / 2

/-- `lerp` from `Math.ts`: `a + (b - a) * t`. -/
def lerp (a b t : ℝ) : ℝ :=
  a + (b - a) * t

/-! ## TerrainGenerator state -/

/-- The private `landTransition` record of `TerrainGenerator`.
`tStart` models the source field `start` and `tEnd` models the source field
`end` (renamed because `end` is a Lean keyword). -/
structure LandTransition where
  tStart : ℝ
  tEnd : ℝ

/-- The state of a `TerrainGenerator` instance: its private constructor-set
fields (`simplex`, `size`, `widthSegments`, `heightSegments`), the public
tunable parameters, the private derived `landTransition` record and the
private `seedPoints` set (`undefined` is modelled by `none`). -/
structure TerrainGenerator where
  simplex : ℝ → ℝ → ℝ
  size : ℝ
  widthSegments : ℕ
  heightSegments : ℕ
  numIslands : ℕ
  islandThreshold : ℝ
  landTransition : LandTransition
  seaFloor : ℝ
  voronoiFalloff : ℝ
  warpStrength : ℝ
  warpOffset : ℝ
  warpFrequency : ℝ
  peaksFrequency : ℝ
  peaksAmplitude : ℝ
  terrainFrequency : ℝ
  islandsWeight : ℝ
  terrainWeight : ℝ
  peaksWeight : ℝ
  edgeFalloff : ℝ
  seedPoints : Option (List (ℝ × ℝ))

namespace TerrainGenerator

def DEFAULT_SIZE : ℝ := 500
def DEFAULT_WIDTH_SEGMENTS : ℕ := 257
def DEFAULT_HEIGHT_SEGMENTS : ℕ := 257
def DEFAULT_NUM_ISLANDS : ℕ := 4
def DEFAULT_ISLAND_THRESHOLD : ℝ := 0.3
def DEFAULT_SEA_FLOOR : ℝ := -10
def DEFAULT_VORONOI_FALLOFF : ℝ := 12
def DEFAULT_WARP_STRENGTH : ℝ := 50
def DEFAULT_WARP_OFFSET : ℝ := 60
def DEFAULT_WARP_FREQUENCY : ℝ := 0.01
def DEFAULT_PEAKS_FREQUENCY : ℝ := 0.06
def DEFAULT_PEAKS_AMPLITUDE : ℝ := 0.45
def DEFAULT_TERRAIN_FREQUENCY : ℝ := 0.03
def DEFAULT_ISLANDS_WEIGHT : ℝ := 30
def DEFAULT_TERRAIN_WEIGHT : ℝ := 20
def DEFAULT_PEAKS_WEIGHT : ℝ := 10
def DEFAULT_EDGE_FALLOFF : ℝ := 0.15

/-- `Number.MAX_SAFE_INTEGER`, the initial accumulator of the minimum
distance fold inside `voronoi`. -/
def MAX_SAFE_INTEGER : ℝ := 9007199254740991

/-- `generateSeedPoints(width, height)`: `numIslands` points with integer
coordinates drawn by `randInRangeInt` in
`[-floor(width * 0.5), floor(width * 0.5)] x [-floor(height * 0.5), floor(height * 0.5)]`.
The `Math.random()` draws are supplied by the stream `rng`, two consecutive
draws per point. -/
def generateSeedPoints (numIslands width height : ℕ) (rng : ℕ → ℝ) :
    List (ℝ × ℝ) :=
  let halfWidth : ℝ := ((⌊(width : ℝ) * 0.5⌋ : ℤ) : ℝ)
  let halfHeight : ℝ := ((⌊(height : ℝ) * 0.5⌋ : ℤ) : ℝ)
  (List.range numIslands).map fun i =>
    (randInRangeInt (rng (2 * i)) (-halfWidth) halfWidth,
     randInRangeInt (rng (2 * i + 1)) (-halfHeight) halfHeight)

/-- The constructor of `TerrainGenerator`: all parameter fields take their
`DEFAULT_*` initializers, `landTransition` is derived from the (default)
`islandThreshold` field initializer, and `seedPoints` is generated eagerly
from the segment counts.  The noise instance `simplex` and the random stream
`rng` consumed by `generateSeedPoints` are passed explicitly. -/
def mkGenerator (simplex : ℝ → ℝ → ℝ) (rng : ℕ → ℝ) (size : ℝ)
    (widthSegments heightSegments : ℕ) : TerrainGenerator where
  simplex := simplex
  size := size
  widthSegments := widthSegments
  heightSegments := heightSegments
  numIslands := DEFAULT_NUM_ISLANDS
  islandThreshold := DEFAULT_ISLAND_THRESHOLD
  landTransition :=
    { tStart := DEFAULT_ISLAND_THRESHOLD + 0.1
      tEnd := DEFAULT_ISLAND_THRESHOLD - 0.05 }
  seaFloor := DEFAULT_SEA_FLOOR
  voronoiFalloff := DEFAULT_VORONOI_FALLOFF
  warpStrength := DEFAULT_WARP_STRENGTH
  warpOffset := DEFAULT_WARP_OFFSET
  warpFrequency := DEFAULT_WARP_FREQUENCY
  peaksFrequency := DEFAULT_PEAKS_FREQUENCY
  peaksAmplitude := DEFAULT_PEAKS_AMPLITUDE
  terrainFrequency := DEFAULT_TERRAIN_FREQUENCY
  islandsWeight := DEFAULT_ISLANDS_WEIGHT
  terrainWeight := DEFAULT_TERRAIN_WEIGHT
  peaksWeight := DEFAULT_PEAKS_WEIGHT
  edgeFalloff := DEFAULT_EDGE_FALLOFF
  seedPoints :=
    some (generateSeedPoints DEFAULT_NUM_ISLANDS widthSegments heightSegments rng)

/-- `voronoi(x, y)`: returns 0 when `seedPoints` is `undefined` or empty;
otherwise folds `Math.min` over the Euclidean distances to the seed points
starting from `Number.MAX_SAFE_INTEGER`, normalizes by the domain diagonal
`sqrt(size^2 + size^2)` and applies the exponential falloff. -/
def voronoi (g : TerrainGenerator) (x y : ℝ) : ℝ :=
  match g.seedPoints with
  | none => 0
  | some ps =>
    if ps.isEmpty then 0
    else
      let maxDistance : ℝ := Real.sqrt (g.size ^ 2 + g.size ^ 2)
      let minDistance : ℝ :=
        ps.foldl (fun m p => min m (euclideanDistance (x, y) p)) MAX_SAFE_INTEGER
      let normalizedDistance := minDistance / maxDistance
      Real.exp (-normalizedDistance * g.voronoiFalloff)

/-- `ridgedNoise(x, y)`: `1 - |simplex(x, y)|`. -/
def ridgedNoise (g : TerrainGenerator) (x y : ℝ) : ℝ :=
  1 - |g.simplex x y|

/-- The local `minDistanceFromEdge` of `calculateEdgeFalloff`: the minimum
over both axes of the normalized distance from the nearest edge,
`min(1 - |x| / (widthSegments / 2), 1 - |y| / (heightSegments / 2))`. -/
def minDistanceFromEdge (g : TerrainGenerator) (x y : ℝ) : ℝ :=
  let halfWidth : ℝ := (g.widthSegments : ℝ) / 2
  let halfHeight : ℝ := (g.heightSegments : ℝ) / 2
  min (1 - |x| / halfWidth) (1 - |y| / halfHeight)

/-- `calculateEdgeFalloff(x, y)`: 1 when `edgeFalloff <= 0`; 1 when the
minimum normalized distance from the edge is at least `edgeFalloff`;
otherwise `easeInOutSine(minDistanceFromEdge / edgeFalloff)`. -/
def calculateEdgeFalloff (g : TerrainGenerator) (x y : ℝ) : ℝ :=
  if g.edgeFalloff ≤ 0 then 1
  else
    if minDistanceFromEdge g x y ≥ g.edgeFalloff then 1
    else easeInOutSine (minDistanceFromEdge g x y / g.edgeFalloff)

/-- The `warpedX` local of `generate`:
`x + simplex(x * warpFrequency, y * warpFrequency) * warpStrength`. -/
def warpedX (g : TerrainGenerator) (x y : ℝ) : ℝ :=
  x + g.simplex (x * g.warpFrequency) (y * g.warpFrequency) * g.warpStrength

/-- The `warpedY` local of `generate`:
`y + simplex(x * warpFrequency + warpOffset, y * warpFrequency) * warpStrength`. -/
def warpedY (g : TerrainGenerator) (x y : ℝ) : ℝ :=
  y + g.simplex (x * g.warpFrequency + g.warpOffset) (y * g.warpFrequency) *
    g.warpStrength

/-- The `landHeight` local of `generate`, as a function of the already
computed `islands` value:
`islands * islandsWeight + terrain * terrainWeight + peaks * peaksWeight`
with `terrain = simplex(x * terrainFrequency, y * terrainFrequency)` and
`peaks = peaksAmplitude * ridgedNoise(x * peaksFrequency, y * peaksFrequency)`. -/
def landHeightAt (g : TerrainGenerator) (x y islands : ℝ) : ℝ :=
  islands * g.islandsWeight +
    g.simplex (x * g.terrainFrequency) (y * g.terrainFrequency) *
      g.terrainWeight +
    g.peaksAmplitude * ridgedNoise g (x * g.peaksFrequency) (y * g.peaksFrequency) *
      g.peaksWeight

/-- The transition-branch expression of `generate` (the body of the
`islands <= landTransition.start` branch), as a function of the `islands`
value with `landHeight` and `edgeFalloffMultiplier` held fixed:
`lerp(seaFloor, lerp(seaFloor, landHeight, easeInOutSine(normalize(islands, end, start))), edgeFalloffMultiplier)`. -/
def transitionHeight (g : TerrainGenerator)
    (landHeight edgeFalloffMultiplier islands : ℝ) : ℝ :=
  lerp g.seaFloor
    (lerp g.seaFloor landHeight
      (easeInOutSine
        (normalize islands g.landTransition.tEnd g.landTransition.tStart)))
    edgeFalloffMultiplier

/-- `generate(x, y)`: domain warp, Voronoi islands, early water exit,
terrain and peaks layers, land/water transition blend and edge falloff,
exactly as in `TerrainGenerator.ts`. -/
def generate (g : TerrainGenerator) (x y : ℝ) : ℝ :=
  let islands := voronoi g (warpedX g x y) (warpedY g x y)
  if islands ≤ g.landTransition.tEnd then
    g.seaFloor
  else
    let terrain := g.simplex (x * g.terrainFrequency) (y * g.terrainFrequency)
    let peaks :=
      g.peaksAmplitude *
        ridgedNoise g (x * g.peaksFrequency) (y * g.peaksFrequency)
    let landHeight :=
      islands * g.islandsWeight + terrain * g.terrainWeight +
        peaks * g.peaksWeight
    let edgeFalloffMultiplier := calculateEdgeFalloff g x y
    if islands ≤ g.landTransition.tStart then
      let t := normalize islands g.landTransition.tEnd g.landTransition.tStart
      let easedT := easeInOutSine t
      let heightWithTransition := lerp g.seaFloor landHeight easedT
      lerp g.seaFloor heightWithTransition edgeFalloffMultiplier
    else
      lerp g.seaFloor landHeight edgeFalloffMultiplier

/-- `generate(x, y)` instrumented with an evaluation trace: the second
component lists, in order, the argument pairs of every call to the
`simplex` noise primitive made during the computation.  The early water
exit returns after only the two domain-warp evaluations. -/
def generateT (g : TerrainGenerator) (x y : ℝ) : ℝ × List (ℝ × ℝ) :=
  let warpCalls : List (ℝ × ℝ) :=
    [(x * g.warpFrequency, y * g.warpFrequency),
     (x * g.warpFrequency + g.warpOffset, y * g.warpFrequency)]
  let islands := voronoi g (warpedX g x y) (warpedY g x y)
  if islands ≤ g.landTransition.tEnd then
    (g.seaFloor, warpCalls)
  else
    let terrain := g.simplex (x * g.terrainFrequency) (y * g.terrainFrequency)
    let peaks :=
      g.peaksAmplitude *
        ridgedNoise g (x * g.peaksFrequency) (y * g.peaksFrequency)
    let landHeight :=
      islands * g.islandsWeight + terrain * g.terrainWeight +
        peaks * g.peaksWeight
    let edgeFalloffMultiplier := calculateEdgeFalloff g x y
    let trace :=
      warpCalls ++
        [(x * g.terrainFrequency, y * g.terrainFrequency),
         (x * g.peaksFrequency, y * g.peaksFrequency)]
    if islands ≤ g.landTransition.tStart then
      let t := normalize islands g.landTransition.tEnd g.landTransition.tStart
      let easedT := easeInOutSine t
      let heightWithTransition := lerp g.seaFloor landHeight easedT
      (lerp g.seaFloor heightWithTransition edgeFalloffMultiplier, trace)
    else
      (lerp g.seaFloor landHeight edgeFalloffMultiplier, trace)

/-- `generateHeights(width, height, heights)`: the nested row-major sweep,
rendered as a list: for each `y < height` a row of `width` samples
`generate(x - width / 2, y - height / 2)`. -/
def generateHeights (g : TerrainGenerator) (width height : ℕ) : List ℝ :=
  (List.range height).flatMap fun (y : ℕ) =>
    (List.range width).map fun (x : ℕ) =>
      generate g ((x : ℝ) - (width : ℝ) / 2) ((y : ℝ) - (height : ℝ) / 2)

/-- `generateHeightMap(sameSeed)`: regenerates `seedPoints` when `sameSeed`
is false or no seed points exist, then sweeps the grid.  The updated
generator state is returned alongside the produced heights. -/
def generateHeightMap (g : TerrainGenerator) (sameSeed : Bool) (rng : ℕ → ℝ) :
    TerrainGenerator × List ℝ :=
  let g' :=
    if !sameSeed || g.seedPoints.isNone then
      { g with
        seedPoints :=
          some (generateSeedPoints g.numIslands g.widthSegments
            g.heightSegments rng) }
    else g
  (g', generateHeights g' g'.widthSegments g'.heightSegments)

/-- One observable mutation of a live `TerrainGenerator`: the GUI layer
writes one of the public tunable fields (`TerrainControls.ts` binds each of
them to a slider), or a generation pass updates the private `seedPoints`.
The private `size`, `widthSegments`, `heightSegments` and `landTransition`
fields have no setter. -/
inductive Step : TerrainGenerator → TerrainGenerator → Prop
  | setNumIslands (g : TerrainGenerator) (n : ℕ) :
      Step g { g with numIslands := n }
  | setIslandThreshold (g : TerrainGenerator) (v : ℝ) :
      Step g { g with islandThreshold := v }
  | setSeaFloor (g : TerrainGenerator) (v : ℝ) :
      Step g { g with seaFloor := v }
  | setVoronoiFalloff (g : TerrainGenerator) (v : ℝ) :
      Step g { g with voronoiFalloff := v }
  | setWarpStrength (g : TerrainGenerator) (v : ℝ) :
      Step g { g with warpStrength := v }
  | setWarpOffset (g : TerrainGenerator) (v : ℝ) :
      Step g { g with warpOffset := v }
  | setWarpFrequency (g : TerrainGenerator) (v : ℝ) :
      Step g { g with warpFrequency := v }
  | setPeaksFrequency (g : TerrainGenerator) (v : ℝ) :
      Step g { g with peaksFrequency := v }
  | setPeaksAmplitude (g : TerrainGenerator) (v : ℝ) :
      Step g { g with peaksAmplitude := v }
  | setTerrainFrequency (g : TerrainGenerator) (v : ℝ) :
      Step g { g with terrainFrequency := v }
  | setIslandsWeight (g : TerrainGenerator) (v : ℝ) :
      Step g { g with islandsWeight := v }
  | setTerrainWeight (g : TerrainGenerator) (v : ℝ) :
      Step g { g with terrainWeight := v }
  | setPeaksWeight (g : TerrainGenerator) (v : ℝ) :
      Step g { g with peaksWeight := v }
  | setEdgeFalloff (g : TerrainGenerator) (v : ℝ) :
      Step g { g with edgeFalloff := v }
  | generatePass (g : TerrainGenerator) (sameSeed : Bool) (rng : ℕ → ℝ) :
      Step g (generateHeightMap g sameSeed rng).1

/-- A generator state reachable from some construction by a sequence of
GUI field writes and generation passes. -/
def Reachable (g : TerrainGenerator) : Prop :=
  ∃ (simplex : ℝ → ℝ → ℝ) (rng : ℕ → ℝ) (size : ℝ) (ws hs : ℕ),
    Relation.ReflTransGen Step (mkGenerator simplex rng size ws hs) g

end TerrainGenerator

/-! ## Water shader fBm (`water.fs.glsl`) -/

/-- The octave count constant `numOctaves` of the water fragment shader. -/
def numOctaves : ℕ := 5

/-- The accumulation loop of `fbm`: state `(f, a, t)` for frequency,
amplitude and total; each iteration adds `a * snoise(f * p)`, doubles `f`
and multiplies `a` by the gain `0.5`. -/
def fbmLoop (snoise : ℝ × ℝ → ℝ) (p : ℝ × ℝ) :
    ℕ → ℝ → ℝ → ℝ → ℝ
  | 0, _, _, t => t
  | n + 1, f, a, t =>
    fbmLoop snoise p n (f * 2) (a * 0.5) (t + a * snoise (f * p.1, f * p.2))

/-- `fbm(p)` from the water fragment shader: `numOctaves` octaves starting
from frequency 1, amplitude 1 and total 0. -/
def fbm (snoise : ℝ × ℝ → ℝ) (p : ℝ × ℝ) : ℝ :=
  fbmLoop snoise p numOctaves 1 1 0

/-! ## Shared helper lemmas and concrete states -/

namespace TerrainGenerator

/-- `easeInOutSine` stays in `[0, 1]` on every real input, because the
cosine it is built from stays in `[-1, 1]`. -/
lemma easeInOutSine_bounds (t : ℝ) :
    0 ≤ easeInOutSine t ∧ easeInOutSine t ≤ 1 := by
  have h1 := Real.cos_le_one (Real.pi * t)
  have h2 := Real.neg_one_le_cos (Real.pi * t)
  unfold easeInOutSine
  constructor <;> linarith

/-- A constant-zero stand-in for the seeded simplex noise instance, used to
build concrete generator states. -/
def simplex0 : ℝ → ℝ → ℝ := fun _ _ => 0

/-- A constant-zero random stream, used to build concrete generator states. -/
def rng0 : ℕ → ℝ := fun _ => 0

/-- A freshly constructed generator at the default construction arguments. -/
def g0 : TerrainGenerator := mkGenerator simplex0 rng0 500 257 257

/-- A generator whose seed-point set is the empty list. -/
def gEmptySeeds : TerrainGenerator := { g0 with seedPoints := some [] }

/-- No mutation step touches the private `landTransition` record: the GUI
setters write other fields and a generation pass only rewrites
`seedPoints`. -/
lemma landTransition_step {g g' : TerrainGenerator} (h : Step g g') :
    g'.landTransition = g.landTransition := by
  cases h <;>
    first
      | rfl
      | · simp only [generateHeightMap]
          split <;> rfl

/-- In every reachable state, `landTransition` still holds the value
derived at construction from the default `islandThreshold`. -/
lemma reachable_landTransition {g : TerrainGenerator} (hg : Reachable g) :
    g.landTransition =
      { tStart := DEFAULT_ISLAND_THRESHOLD + 0.1
        tEnd := DEFAULT_ISLAND_THRESHOLD - 0.05 } := by
  obtain ⟨sim, rng, sz, ws, hs, h⟩ := hg
  induction h with
  | refl => rfl
  | tail _ hstep ih => rw [landTransition_step hstep]; exact ih

/-- A generation pass never changes the grid dimensions. -/
lemma generateHeightMap_segments (g : TerrainGenerator) (sameSeed : Bool)
    (rng : ℕ → ℝ) :
    (generateHeightMap g sameSeed rng).1.widthSegments = g.widthSegments ∧
    (generateHeightMap g sameSeed rng).1.heightSegments = g.heightSegments ∧
    (generateHeightMap g sameSeed rng).1.seaFloor = g.seaFloor := by
  simp only [generateHeightMap]
  split <;> exact ⟨rfl, rfl, rfl⟩

/-- With an empty seed-point list and a nonnegative transition end,
`generate` takes the early water exit at every point. -/
lemma generate_emptySeeds {g : TerrainGenerator} (hsp : g.seedPoints = some [])
    (hend : 0 ≤ g.landTransition.tEnd) (x y : ℝ) :
    generate g x y = g.seaFloor := by
  have hv : voronoi g (warpedX g x y) (warpedY g x y) = 0 := by
    simp [voronoi, hsp]
  simp only [generate]
  rw [hv, if_pos hend]

end TerrainGenerator

/-! ## Minimum-fold lemma -/

/-- Folding `min` over a list that has `dmin` as a lower bound, starting
from an accumulator at least `dmin`, yields `dmin` provided `dmin` is
attained in the list or is the accumulator itself. -/
lemma foldl_min_eq (dmin : ℝ) :
    ∀ (l : List ℝ) (a : ℝ), (∀ d ∈ l, dmin ≤ d) → dmin ≤ a →
      (dmin ∈ l ∨ dmin = a) → l.foldl min a = dmin := by
  intro l
  induction l with
  | nil =>
    intro a _ _ hit
    rcases hit with h | h
    · exact absurd h (List.not_mem_nil dmin)
    · simpa using h.symm
  | cons x t ih =>
    intro a hle ha hit
    rw [List.foldl_cons]
    refine ih (min a x) (fun d hd => hle d (List.mem_cons_of_mem x hd))
      (le_min ha (hle x (List.mem_cons_self x t))) ?_
    rcases hit with h | h
    · rcases List.mem_cons.mp h with h | h
      · exact Or.inr (h.trans (min_eq_right (h ▸ ha)).symm)
      · exact Or.inl h
    · exact Or.inr
        (h.trans (min_eq_left (h ▸ hle x (List.mem_cons_self x t))).symm)

/-! ## Row-major sweep lemmas -/

/-- Length of a row-major sweep: `H` rows of `W` samples each. -/
lemma flatMap_rows_length (W : ℕ) (F : ℕ → ℕ → ℝ) :
    ∀ H : ℕ,
      ((List.range H).flatMap fun y => (List.range W).map fun x => F y x).length
        = H * W := by
  intro H
  induction H with
  | zero => simp
  | succ n ih =>
    rw [List.range_succ, List.flatMap_append, List.length_append, ih]
    simp [Nat.succ_mul]

/-- Indexing a row-major sweep: entry `y * W + x` is the sample of row `y`,
column `x`. -/
lemma flatMap_rows_getD (W : ℕ) (F : ℕ → ℕ → ℝ) :
    ∀ (H y x : ℕ), y < H → x < W →
      ((List.range H).flatMap fun y =>
        (List.range W).map fun x => F y x).getD (y * W + x) 0 = F y x := by
  intro H
  induction H with
  | zero => intro y x hy _; exact absurd hy (Nat.not_lt_zero y)
  | succ n ih =>
    intro y x hy hx
    rw [List.range_succ, List.flatMap_append]
    rcases Nat.lt_or_ge y n with hyn | hyn
    · rw [List.getD_append]
      · exact ih y x hyn hx
      · rw [flatMap_rows_length W F n]
        calc y * W + x < y * W + W := by omega
          _ ≤ n * W := by
              have : y + 1 ≤ n := hyn
              calc y * W + W = (y + 1) * W := (Nat.succ_mul y W).symm
                _ ≤ n * W := Nat.mul_le_mul_right W this
    · have hyn' : y = n := by omega
      subst hyn'
      rw [List.getD_append_right]
      · rw [flatMap_rows_length W F y]
        have hxr : y * W + x - y * W = x := by omega
        rw [hxr]
        have hlen : x < ((List.range W).map fun x => F y x).length := by
          simpa using hx
        rw [List.flatMap_cons, List.flatMap_nil, List.append_nil,
          List.getD_eq_getElem _ _ (by simpa using hlen)]
        simp
      · rw [flatMap_rows_length W F y]
        omega

/-- A row-major sweep whose sample function is constant is a replicated
list. -/
lemma flatMap_rows_const (W : ℕ) (F : ℕ → ℕ → ℝ) (c : ℝ)
    (h : ∀ y x, F y x = c) :
    ∀ H : ℕ,
      ((List.range H).flatMap fun y => (List.range W).map fun x => F y x)
        = List.replicate (H * W) c := by
  intro H
  induction H with
  | zero => simp
  | succ n ih =>
    rw [List.range_succ, List.flatMap_append, ih, List.flatMap_cons,
      List.flatMap_nil, List.append_nil]
    have hrow : ((List.range W).map fun x => F n x) = List.replicate W c := by
      rw [show (fun x => F n x) = fun _ => c from funext fun x => h n x]
      simp [List.map_const']
    rw [hrow, Nat.succ_mul, List.replicate_add]

/-! ## Claim theorems -/

open TerrainGenerator

/-- C1: whenever the Voronoi value at the domain-warped coordinates is at
most `landTransition.end`, `generate` returns exactly `seaFloor`, and the
evaluation trace contains only the two domain-warp noise calls — the
terrain and peaks noise layers are never evaluated. -/
theorem generate_early_out (g : TerrainGenerator) (x y : ℝ)
    (h : voronoi g (warpedX g x y) (warpedY g x y) ≤ g.landTransition.tEnd) :
    generate g x y = g.seaFloor ∧
    generateT g x y =
      (g.seaFloor,
       [(x * g.warpFrequency, y * g.warpFrequency),
        (x * g.warpFrequency + g.warpOffset, y * g.warpFrequency)]) := by
  constructor
  · simp only [generate]
    rw [if_pos h]
  · simp only [generateT]
    rw [if_pos h]

/-- C1 witness: a generator with an empty seed-point set has Voronoi value
0 at every point, which is below the transition band, so `generate`
returns the sea floor after only the two warp noise calls. -/
theorem generate_early_out_witness :
    generate gEmptySeeds 0 0 = gEmptySeeds.seaFloor ∧
    generateT gEmptySeeds 0 0 =
      (gEmptySeeds.seaFloor,
       [(0 * gEmptySeeds.warpFrequency, 0 * gEmptySeeds.warpFrequency),
        (0 * gEmptySeeds.warpFrequency + gEmptySeeds.warpOffset,
         0 * gEmptySeeds.warpFrequency)]) := by
  refine generate_early_out gEmptySeeds 0 0 ?_
  show voronoi gEmptySeeds _ _ ≤ gEmptySeeds.landTransition.tEnd
  have hv : voronoi gEmptySeeds (warpedX gEmptySeeds 0 0)
      (warpedY gEmptySeeds 0 0) = 0 := by
    simp [voronoi, gEmptySeeds]
  rw [hv]
  show (0 : ℝ) ≤ (mkGenerator simplex0 rng0 500 257 257).landTransition.tEnd
  norm_num [mkGenerator, DEFAULT_ISLAND_THRESHOLD]

/-- C7: the edge falloff multiplier always lies in `[0, 1]`; it equals 1
exactly when the falloff fraction is disabled (`edgeFalloff <= 0`) or the
point lies outside the falloff band
(`minDistanceFromEdge >= edgeFalloff`), and otherwise it is
`easeInOutSine(minDistanceFromEdge / edgeFalloff)`, where
`minDistanceFromEdge` is the minimum of the two per-axis normalized
distances from the edge. -/
theorem calculateEdgeFalloff_spec (g : TerrainGenerator) (x y : ℝ) :
    (0 ≤ calculateEdgeFalloff g x y ∧ calculateEdgeFalloff g x y ≤ 1) ∧
    (g.edgeFalloff ≤ 0 ∨ g.edgeFalloff ≤ minDistanceFromEdge g x y →
      calculateEdgeFalloff g x y = 1) ∧
    (0 < g.edgeFalloff → minDistanceFromEdge g x y < g.edgeFalloff →
      calculateEdgeFalloff g x y =
        easeInOutSine (minDistanceFromEdge g x y / g.edgeFalloff)) := by
  unfold calculateEdgeFalloff
  split_ifs with h1 h2
  · exact ⟨by norm_num, fun _ => rfl, fun hef _ => absurd h1 (not_le.mpr hef)⟩
  · exact ⟨by norm_num, fun _ => rfl, fun _ hlt => absurd h2 (not_le.mpr hlt)⟩
  · refine ⟨easeInOutSine_bounds _, fun hor => ?_, fun _ _ => rfl⟩
    rcases hor with h | h
    · exact absurd h h1
    · exact absurd h h2

/-- C7 witness: at the default generator, the center of the plane is
outside the falloff band so the multiplier is 1, while the point
`(120, 0)` is inside the band and gets the eased value. -/
theorem calculateEdgeFalloff_spec_witness :
    calculateEdgeFalloff g0 0 0 = 1 ∧
    calculateEdgeFalloff g0 120 0 =
      easeInOutSine (minDistanceFromEdge g0 120 0 / g0.edgeFalloff) := by
  constructor
  · refine (calculateEdgeFalloff_spec g0 0 0).2.1 (Or.inr ?_)
    show g0.edgeFalloff ≤ minDistanceFromEdge g0 0 0
    unfold minDistanceFromEdge
    refine le_min ?_ ?_ <;>
      norm_num [g0, mkGenerator, DEFAULT_EDGE_FALLOFF]
  · refine (calculateEdgeFalloff_spec g0 120 0).2.2 ?_ ?_
    · norm_num [g0, mkGenerator, DEFAULT_EDGE_FALLOFF]
    · unfold minDistanceFromEdge
      refine min_lt_iff.mpr (Or.inl ?_)
      norm_num [g0, mkGenerator, DEFAULT_EDGE_FALLOFF]

/-- C9: the water shader's `fbm` is exactly the sum of 5 octaves,
octave `i` contributing amplitude `0.5 ^ i` times the noise sampled at
frequency `2 ^ i`, starting from frequency 1 and amplitude 1. -/
theorem fbm_five_octaves (snoise : ℝ × ℝ → ℝ) (p : ℝ × ℝ) :
    fbm snoise p =
      ∑ i ∈ Finset.range 5,
        (0.5 : ℝ) ^ i * snoise ((2 : ℝ) ^ i * p.1, (2 : ℝ) ^ i * p.2) := by
  simp only [fbm, numOctaves, fbmLoop, Finset.sum_range_succ,
    Finset.sum_range_zero]
  norm_num

/-- C10: `generate` (and the heightmap it produces) does not depend on the
current value of the public `islandThreshold` field: the land/water cutoffs
are read only from the `landTransition` record fixed at construction. -/
theorem generate_islandThreshold_independent (g : TerrainGenerator)
    (v : ℝ) (x y : ℝ) (sameSeed : Bool) (rng : ℕ → ℝ) :
    generate { g with islandThreshold := v } x y = generate g x y ∧
    (generateHeightMap { g with islandThreshold := v } sameSeed rng).2 =
      (generateHeightMap g sameSeed rng).2 := by
  refine ⟨rfl, ?_⟩
  obtain ⟨sim, sz, ws, hs, ni, it, lt, sf, vf, wst, wo, wf, pf, pa, tf, iw,
    tw, pw, ef, sp⟩ := g
  cases sameSeed <;> cases sp <;> rfl

/-- C2: a generation pass returns exactly
`widthSegments * heightSegments` samples in row-major order, the entry at
index `y * W + x` being the height generated at the centered world
coordinate `(x - W / 2, y - H / 2)`. -/
theorem generateHeightMap_shape (g : TerrainGenerator) (sameSeed : Bool)
    (rng : ℕ → ℝ) :
    (generateHeightMap g sameSeed rng).2.length =
      g.widthSegments * g.heightSegments ∧
    ∀ x y : ℕ, x < g.widthSegments → y < g.heightSegments →
      (generateHeightMap g sameSeed rng).2.getD (y * g.widthSegments + x) 0 =
        generate (generateHeightMap g sameSeed rng).1
          ((x : ℝ) - (g.widthSegments : ℝ) / 2)
          ((y : ℝ) - (g.heightSegments : ℝ) / 2) := by
  obtain ⟨hw, hh, -⟩ := generateHeightMap_segments g sameSeed rng
  have h2 : (generateHeightMap g sameSeed rng).2 =
      generateHeights (generateHeightMap g sameSeed rng).1
        (generateHeightMap g sameSeed rng).1.widthSegments
        (generateHeightMap g sameSeed rng).1.heightSegments := rfl
  rw [h2, hw, hh]
  unfold generateHeights
  constructor
  · rw [flatMap_rows_length g.widthSegments
      (fun y x => generate (generateHeightMap g sameSeed rng).1
        ((x : ℝ) - (g.widthSegments : ℝ) / 2)
        ((y : ℝ) - (g.heightSegments : ℝ) / 2))]
    exact Nat.mul_comm _ _
  · intro x y hx hy
    exact flatMap_rows_getD g.widthSegments
      (fun y x => generate (generateHeightMap g sameSeed rng).1
        ((x : ℝ) - (g.widthSegments : ℝ) / 2)
        ((y : ℝ) - (g.heightSegments : ℝ) / 2))
      g.heightSegments y x hy hx

/-- C2 witness: at a concrete 2x2 construction, the heightmap has 4
samples and the entry at index `1 * 2 + 1` is the height at world
coordinate `(1 - 1, 1 - 1)`. -/
theorem generateHeightMap_shape_witness :
    (generateHeightMap (mkGenerator simplex0 rng0 500 2 2) true rng0).2.length
      = 2 * 2 ∧
    (generateHeightMap (mkGenerator simplex0 rng0 500 2 2) true rng0).2.getD
        (1 * 2 + 1) 0 =
      generate (generateHeightMap (mkGenerator simplex0 rng0 500 2 2) true
          rng0).1
        ((1 : ℝ) - (2 : ℝ) / 2) ((1 : ℝ) - (2 : ℝ) / 2) := by
  have h := generateHeightMap_shape (mkGenerator simplex0 rng0 500 2 2) true
    rng0
  have h2 := h.2 1 1 (by norm_num [mkGenerator]) (by norm_num [mkGenerator])
  constructor
  · simpa [mkGenerator] using h.1
  · simpa [mkGenerator] using h2

/-- C4 counterexample: after the GUI writes `islandThreshold := 0.5` on a
freshly constructed generator, the claimed invariant
`landTransition.start = islandThreshold + 0.1 and
landTransition.end = islandThreshold - 0.05` fails in this reachable
state, because `landTransition` is never recomputed. -/
theorem landTransition_claim_cex :
    Reachable { g0 with islandThreshold := 0.5 } ∧
    ¬ (({ g0 with islandThreshold := 0.5 } :
          TerrainGenerator).landTransition.tStart =
        ({ g0 with islandThreshold := 0.5 } :
          TerrainGenerator).islandThreshold + 0.1 ∧
       ({ g0 with islandThreshold := 0.5 } :
          TerrainGenerator).landTransition.tEnd =
        ({ g0 with islandThreshold := 0.5 } :
          TerrainGenerator).islandThreshold - 0.05) := by
  constructor
  · exact ⟨simplex0, rng0, 500, 257, 257,
      Relation.ReflTransGen.single (Step.setIslandThreshold g0 0.5)⟩
  · rintro ⟨h1, -⟩
    simp only [g0, mkGenerator, DEFAULT_ISLAND_THRESHOLD] at h1
    norm_num at h1

/-- C4 (amended): `landTransition` is derived from `islandThreshold` once,
at construction, where the relationship
`start = islandThreshold + 0.1`, `end = islandThreshold - 0.05` holds for
the default threshold 0.3; mutating `islandThreshold` later does not update
it, so in every reachable state `landTransition` still holds the
construction values `start = 0.4`, `end = 0.25`, and `end < start` always
holds. -/
theorem landTransition_fixed (g : TerrainGenerator) (hg : Reachable g) :
    g.landTransition.tStart = DEFAULT_ISLAND_THRESHOLD + 0.1 ∧
    g.landTransition.tEnd = DEFAULT_ISLAND_THRESHOLD - 0.05 ∧
    g.landTransition.tEnd < g.landTransition.tStart := by
  rw [reachable_landTransition hg]
  refine ⟨rfl, rfl, ?_⟩
  norm_num [DEFAULT_ISLAND_THRESHOLD]

/-- C4 witness: the freshly constructed default generator is reachable and
carries the construction-time `landTransition` values. -/
theorem landTransition_fixed_witness :
    g0.landTransition.tStart = DEFAULT_ISLAND_THRESHOLD + 0.1 ∧
    g0.landTransition.tEnd = DEFAULT_ISLAND_THRESHOLD - 0.05 ∧
    g0.landTransition.tEnd < g0.landTransition.tStart :=
  landTransition_fixed g0
    ⟨simplex0, rng0, 500, 257, 257, Relation.ReflTransGen.refl⟩

/-- C5: with the seed-point set present, a `sameSeed = true` generation
pass is independent of the random stream, leaves the generator state
unchanged (no seed regeneration), and two successive passes produce
identical height lists. -/
theorem sameSeed_stability (g : TerrainGenerator) (ps : List (ℝ × ℝ))
    (hps : g.seedPoints = some ps) (rng₁ rng₂ : ℕ → ℝ) :
    (generateHeightMap g true rng₁).1 = g ∧
    (generateHeightMap g true rng₁).2 = (generateHeightMap g true rng₂).2 ∧
    (generateHeightMap (generateHeightMap g true rng₁).1 true rng₂).2 =
      (generateHeightMap g true rng₁).2 := by
  have key : ∀ rng : ℕ → ℝ,
      generateHeightMap g true rng =
        (g, generateHeights g g.widthSegments g.heightSegments) := by
    intro rng
    simp [generateHeightMap, hps]
  refine ⟨?_, ?_, ?_⟩
  · rw [key rng₁]
  · rw [key rng₁, key rng₂]
  · rw [key rng₁]
    show (generateHeightMap g true rng₂).2 = _
    rw [key rng₂]

/-- C5 witness: the default construction has its eagerly generated seed
points, so two same-seed passes with different random streams coincide. -/
theorem sameSeed_stability_witness :
    (generateHeightMap g0 true rng0).1 = g0 ∧
    (generateHeightMap g0 true rng0).2 =
      (generateHeightMap g0 true (fun _ => 0.5)).2 ∧
    (generateHeightMap (generateHeightMap g0 true rng0).1 true
        (fun _ => 0.5)).2 =
      (generateHeightMap g0 true rng0).2 :=
  sameSeed_stability g0
    (generateSeedPoints DEFAULT_NUM_ISLANDS 257 257 rng0) rfl rng0
    (fun _ => 0.5)

/-- C6: in a reachable state with `numIslands = 0`, a regenerating pass
(`sameSeed = false`) draws an empty seed-point set, the island field is 0
everywhere, and every sample of the returned heightmap equals
`seaFloor`. -/
theorem emptySeeds_allSeaFloor (g : TerrainGenerator) (hg : Reachable g)
    (h0 : g.numIslands = 0) (rng : ℕ → ℝ) :
    (generateHeightMap g false rng).2 =
      List.replicate (g.heightSegments * g.widthSegments) g.seaFloor := by
  obtain ⟨hw, hh, hsf⟩ := generateHeightMap_segments g false rng
  have h2 : (generateHeightMap g false rng).2 =
      generateHeights (generateHeightMap g false rng).1
        (generateHeightMap g false rng).1.widthSegments
        (generateHeightMap g false rng).1.heightSegments := rfl
  have hsp : (generateHeightMap g false rng).1.seedPoints = some [] := by
    simp [generateHeightMap, h0, generateSeedPoints]
  have hlt : (generateHeightMap g false rng).1.landTransition =
      g.landTransition := by
    simp only [generateHeightMap]
    split <;> rfl
  have hend : (0 : ℝ) ≤ (generateHeightMap g false rng).1.landTransition.tEnd := by
    rw [hlt, reachable_landTransition hg]
    norm_num [DEFAULT_ISLAND_THRESHOLD]
  have hgen : ∀ x y : ℝ, generate (generateHeightMap g false rng).1 x y =
      g.seaFloor := by
    intro x y
    rw [generate_emptySeeds hsp hend x y, hsf]
  rw [h2, hw, hh]
  unfold generateHeights
  exact flatMap_rows_const g.widthSegments _ g.seaFloor
    (fun y x => hgen _ _) g.heightSegments

/-- C3 counterexample: `voronoi` initializes its minimum-distance fold at
the sentinel `Number.MAX_SAFE_INTEGER`, so for a seed point at distance
`2 * MAX_SAFE_INTEGER` (which is the minimum distance, the seed set being
a singleton) the computed value differs from the claimed
`exp(-(d_min / sqrt(size^2 + size^2)) * voronoiFalloff)`. -/
theorem voronoi_claim_cex :
    (∀ d ∈ ([((2 : ℝ) * MAX_SAFE_INTEGER, (0 : ℝ))] : List (ℝ × ℝ)).map
        (fun p => euclideanDistance (0, 0) p),
      euclideanDistance ((0 : ℝ), (0 : ℝ)) (2 * MAX_SAFE_INTEGER, 0) ≤ d) ∧
    voronoi { g0 with seedPoints := some [(2 * MAX_SAFE_INTEGER, 0)] } 0 0 ≠
      Real.exp
        (-(euclideanDistance ((0 : ℝ), (0 : ℝ)) (2 * MAX_SAFE_INTEGER, 0) /
            Real.sqrt ((500 : ℝ) ^ 2 + (500 : ℝ) ^ 2)) * 12) := by
  have hdist : euclideanDistance ((0 : ℝ), (0 : ℝ)) (2 * MAX_SAFE_INTEGER, 0)
      = 2 * MAX_SAFE_INTEGER := by
    unfold euclideanDistance
    rw [show (2 * MAX_SAFE_INTEGER - 0) ^ 2 + ((0 : ℝ) - 0) ^ 2
        = (2 * MAX_SAFE_INTEGER) ^ 2 by ring]
    exact Real.sqrt_sq (by norm_num [MAX_SAFE_INTEGER])
  constructor
  · intro d hd
    simp only [List.map_cons, List.map_nil, List.mem_singleton] at hd
    rw [hd]
  · have hvor :
        voronoi { g0 with seedPoints := some [(2 * MAX_SAFE_INTEGER, 0)] } 0 0
          = Real.exp
              (-(MAX_SAFE_INTEGER /
                  Real.sqrt ((500 : ℝ) ^ 2 + (500 : ℝ) ^ 2)) * 12) := by
      simp only [voronoi, g0, mkGenerator, List.isEmpty_cons,
        Bool.false_eq_true, if_false, List.foldl_cons, List.foldl_nil,
        DEFAULT_VORONOI_FALLOFF]
      rw [hdist, min_eq_left (by norm_num [MAX_SAFE_INTEGER])]
    rw [hvor, hdist]
    intro heq
    have hexp := Real.exp_eq_exp.mp heq
    have hs : (0 : ℝ) < Real.sqrt ((500 : ℝ) ^ 2 + (500 : ℝ) ^ 2) :=
      Real.sqrt_pos.mpr (by norm_num)
    have h12 : MAX_SAFE_INTEGER / Real.sqrt ((500 : ℝ) ^ 2 + (500 : ℝ) ^ 2)
        = 2 * MAX_SAFE_INTEGER / Real.sqrt ((500 : ℝ) ^ 2 + (500 : ℝ) ^ 2) := by
      linarith
    rw [div_eq_div_iff hs.ne' hs.ne'] at h12
    have hM := mul_right_cancel₀ hs.ne' h12
    norm_num [MAX_SAFE_INTEGER] at hM

/-- C3 (amended): with a nonempty seed set whose minimum distance `dmin`
to the query point does not exceed the sentinel `Number.MAX_SAFE_INTEGER`
(the initial accumulator of the code's minimum fold), `voronoi` equals
`exp(-(dmin / sqrt(size^2 + size^2)) * voronoiFalloff)`, and this value
lies in `(0, 1]` whenever `voronoiFalloff > 0` and
`dmin <= sqrt(size^2 + size^2)`; with no seed points (missing or empty
set) `voronoi` returns exactly 0. -/
theorem voronoi_exp_falloff :
    (∀ (g : TerrainGenerator) (x y : ℝ),
      g.seedPoints = none ∨ g.seedPoints = some [] → voronoi g x y = 0) ∧
    (∀ (g : TerrainGenerator) (x y : ℝ) (ps : List (ℝ × ℝ)) (dmin : ℝ),
      g.seedPoints = some ps →
      dmin ∈ ps.map (fun p => euclideanDistance (x, y) p) →
      (∀ d ∈ ps.map (fun p => euclideanDistance (x, y) p), dmin ≤ d) →
      dmin ≤ MAX_SAFE_INTEGER →
      voronoi g x y =
        Real.exp (-(dmin / Real.sqrt (g.size ^ 2 + g.size ^ 2)) *
          g.voronoiFalloff) ∧
      (0 < g.voronoiFalloff →
        dmin ≤ Real.sqrt (g.size ^ 2 + g.size ^ 2) →
        0 < voronoi g x y ∧ voronoi g x y ≤ 1)) := by
  constructor
  · intro g x y h
    rcases h with h | h <;> simp [voronoi, h]
  · intro g x y ps dmin hps hmem hle hsafe
    have hne : ps ≠ [] := by
      rintro rfl
      simp at hmem
    have heq : voronoi g x y =
        Real.exp (-(dmin / Real.sqrt (g.size ^ 2 + g.size ^ 2)) *
          g.voronoiFalloff) := by
      simp only [voronoi, hps]
      rw [if_neg (by simp [hne]), ← List.foldl_map,
        foldl_min_eq dmin (ps.map fun p => euclideanDistance (x, y) p)
          MAX_SAFE_INTEGER hle hsafe (Or.inl hmem)]
    refine ⟨heq, fun hf hd => ?_⟩
    rw [heq]
    refine ⟨Real.exp_pos _, Real.exp_le_one_iff.mpr ?_⟩
    have hd0 : 0 ≤ dmin := by
      obtain ⟨p, -, hpd⟩ := List.mem_map.mp hmem
      rw [← hpd]
      exact Real.sqrt_nonneg _
    have hq : 0 ≤ dmin / Real.sqrt (g.size ^ 2 + g.size ^ 2) :=
      div_nonneg hd0 (Real.sqrt_nonneg _)
    rw [neg_mul]
    exact neg_nonpos.mpr (mul_nonneg hq hf.le)

/-- C3 witness: with a single seed at the origin and falloff 12, the value
at the origin is `exp(-(0 / diagonal) * 12)` and lies in `(0, 1]`;
a generator with an empty seed list yields 0. -/
theorem voronoi_exp_falloff_witness :
    voronoi gEmptySeeds 0 0 = 0 ∧
    voronoi { g0 with seedPoints := some [(0, 0)] } 0 0 =
      Real.exp
        (-(euclideanDistance ((0 : ℝ), (0 : ℝ)) (0, 0) /
            Real.sqrt
              (({ g0 with seedPoints := some [(0, 0)] } :
                  TerrainGenerator).size ^ 2 +
                ({ g0 with seedPoints := some [(0, 0)] } :
                  TerrainGenerator).size ^ 2)) *
          ({ g0 with seedPoints := some [(0, 0)] } :
            TerrainGenerator).voronoiFalloff) ∧
    0 < voronoi { g0 with seedPoints := some [(0, 0)] } 0 0 ∧
    voronoi { g0 with seedPoints := some [(0, 0)] } 0 0 ≤ 1 := by
  have h0 := voronoi_exp_falloff.1 gEmptySeeds 0 0 (Or.inr rfl)
  have hdist : euclideanDistance ((0 : ℝ), (0 : ℝ)) ((0 : ℝ), (0 : ℝ)) = 0 := by
    unfold euclideanDistance
    norm_num
  have hmem : euclideanDistance ((0 : ℝ), (0 : ℝ)) ((0 : ℝ), (0 : ℝ)) ∈
      ([((0 : ℝ), (0 : ℝ))] : List (ℝ × ℝ)).map
        (fun p => euclideanDistance (0, 0) p) := by
    simp
  have h1 := voronoi_exp_falloff.2 { g0 with seedPoints := some [(0, 0)] }
    0 0 [(0, 0)] (euclideanDistance ((0 : ℝ), (0 : ℝ)) ((0 : ℝ), (0 : ℝ)))
    rfl hmem
    (by
      intro d hd
      simp only [List.map_cons, List.map_nil, List.mem_singleton] at hd
      rw [hd])
    (by rw [hdist]; norm_num [MAX_SAFE_INTEGER])
  refine ⟨h0, h1.1, ?_⟩
  refine h1.2 ?_ ?_
  · show (0 : ℝ) < ({ g0 with seedPoints := some [(0, 0)] } :
      TerrainGenerator).voronoiFalloff
    norm_num [g0, mkGenerator, DEFAULT_VORONOI_FALLOFF]
  · rw [hdist]
    exact Real.sqrt_nonneg _

/-- C8: the transition-branch height, as a function of the `islands` value
with land height and edge multiplier fixed, tends to the water-branch
value `seaFloor` as `islands` approaches `landTransition.end` from above,
and at `islands = landTransition.start` equals the land-branch value
`lerp(seaFloor, landHeight, edgeFalloffMultiplier)`; moreover inside the
band `(end, start]` the height returned by `generate` is exactly this
transition-branch expression. -/
theorem transition_continuity (g : TerrainGenerator) (landHeight m : ℝ)
    (h : g.landTransition.tEnd < g.landTransition.tStart) :
    Filter.Tendsto (transitionHeight g landHeight m)
      (nhdsWithin g.landTransition.tEnd (Set.Ioi g.landTransition.tEnd))
      (nhds g.seaFloor) ∧
    transitionHeight g landHeight m g.landTransition.tStart =
      lerp g.seaFloor landHeight m ∧
    (∀ x y : ℝ,
      g.landTransition.tEnd < voronoi g (warpedX g x y) (warpedY g x y) →
      voronoi g (warpedX g x y) (warpedY g x y) ≤ g.landTransition.tStart →
      generate g x y =
        transitionHeight g
          (landHeightAt g x y (voronoi g (warpedX g x y) (warpedY g x y)))
          (calculateEdgeFalloff g x y)
          (voronoi g (warpedX g x y) (warpedY g x y))) := by
  refine ⟨?_, ?_, ?_⟩
  · have hc : Continuous (transitionHeight g landHeight m) := by
      unfold transitionHeight lerp easeInOutSine normalize
      fun_prop
    have hval : transitionHeight g landHeight m g.landTransition.tEnd =
        g.seaFloor := by
      unfold transitionHeight lerp easeInOutSine normalize
      simp
    have ht := hc.tendsto g.landTransition.tEnd
    rw [hval] at ht
    exact ht.mono_left nhdsWithin_le_nhds
  · unfold transitionHeight lerp easeInOutSine normalize
    rw [div_self (ne_of_gt (sub_pos.mpr h))]
    rw [mul_one, Real.cos_pi]
    ring
  · intro x y h1 h2
    simp only [generate]
    rw [if_neg (not_le.mpr h1), if_pos h2]
    rfl

/-- C8 witness: at the default generator with land height 7 and edge
multiplier 0.5, the transition branch tends to the sea floor at the lower
boundary and matches the land branch at the upper boundary. -/
theorem transition_continuity_witness :
    Filter.Tendsto (transitionHeight g0 7 0.5)
      (nhdsWithin g0.landTransition.tEnd (Set.Ioi g0.landTransition.tEnd))
      (nhds g0.seaFloor) ∧
    transitionHeight g0 7 0.5 g0.landTransition.tStart =
      lerp g0.seaFloor 7 0.5 ∧
    (∀ x y : ℝ,
      g0.landTransition.tEnd < voronoi g0 (warpedX g0 x y) (warpedY g0 x y) →
      voronoi g0 (warpedX g0 x y) (warpedY g0 x y) ≤
        g0.landTransition.tStart →
      generate g0 x y =
        transitionHeight g0
          (landHeightAt g0 x y (voronoi g0 (warpedX g0 x y) (warpedY g0 x y)))
          (calculateEdgeFalloff g0 x y)
          (voronoi g0 (warpedX g0 x y) (warpedY g0 x y))) :=
  transition_continuity g0 7 0.5
    (by norm_num [g0, mkGenerator, DEFAULT_ISLAND_THRESHOLD])

/-- C6 witness: set `numIslands := 0` on the default construction and
regenerate; the whole 257x257 heightmap is the sea floor constant. -/
theorem emptySeeds_allSeaFloor_witness :
    (generateHeightMap { g0 with numIslands := 0 } false rng0).2 =
      List.replicate
        (({ g0 with numIslands := 0 } : TerrainGenerator).heightSegments *
          ({ g0 with numIslands := 0 } : TerrainGenerator).widthSegments)
        ({ g0 with numIslands := 0 } : TerrainGenerator).seaFloor :=
  emptySeeds_allSeaFloor { g0 with numIslands := 0 }
    ⟨simplex0, rng0, 500, 257, 257,
      Relation.ReflTransGen.single (Step.setNumIslands g0 0)⟩
    rfl rng0

end Maritime
